import Mathlib

/-!
Verification of the speechbubble repository: a shallow embedding of the
WaniKani data model (wanikani/models.py), the knowledge aggregation join
(wanikani/client.py, main.py), the sentence assembler
(wanikani/sentence_builder.py) and the flat-file cache (wanikani/client.py),
together with theorems settling the spec claims.

Python dictionaries are modelled as insertion-ordered association lists,
Python sets as lists with membership, machine integers as Int, and
random.choice as an explicit index parameter taken modulo the list length
(random.choice on an empty sequence raises IndexError, modelled as an
explicit error outcome).
-/

/-- Reading record (models.py, dataclass Reading). -/
structure WKReading where
  reading : String
  primary : Bool
  accepted_answer : Bool
  type : String
deriving DecidableEq

/-- Meaning record (models.py, dataclass Meaning). -/
structure WKMeaning where
  meaning : String
  primary : Bool
  accepted_answer : Bool
deriving DecidableEq

/-- Vocabulary or kanji item (models.py, dataclass WaniKaniItem).
The user_specific_data field is a string-to-string map; both construction
paths in the repository always set it (client.py line 101 defaults it to
the empty dict, main.py line 105 sets a literal), so it is not optional
here. -/
structure WaniKaniItem where
  id : Int
  object : String
  level : Int
  characters : String
  meanings : List WKMeaning
  readings : List WKReading
  parts_of_speech : List String
  component_subject_ids : List Int
  srs_stage : Option Int
  user_specific_data : List (String × String)
deriving DecidableEq

/-- models.py, WaniKaniItem.primary_reading: the first reading flagged
primary, or none. -/
def WaniKaniItem.primary_reading (w : WaniKaniItem) : Option String :=
  ((w.readings.filter (fun r => r.primary)).map (fun r => r.reading)).head?

/-- Aggregate snapshot (models.py, dataclass UserKnowledge). -/
structure UserKnowledge where
  vocabulary : List WaniKaniItem
  kanji : List WaniKaniItem
  level : Int
deriving DecidableEq

/-! ### Python dict model: insertion-ordered association lists -/

/-- Python d.get(k): the value at the first occurrence of key k. -/
def lookupA {κ α : Type} [DecidableEq κ] (k : κ) : List (κ × α) → Option α
  | [] => none
  | (k₂, v) :: rest => if k₂ = k then some v else lookupA k rest

/-- Python k in d. -/
def keyMem {κ α : Type} [DecidableEq κ] (k : κ) (d : List (κ × α)) : Bool :=
  (lookupA k d).isSome

/-- Python d[k] = v: an existing key keeps its position with the value
replaced, a new key is appended at the end. -/
def dictInsert {κ α : Type} [DecidableEq κ] (k : κ) (v : α) :
    List (κ × α) → List (κ × α)
  | [] => [(k, v)]
  | (k₂, v₂) :: rest =>
      if k₂ = k then (k₂, v) :: rest else (k₂, v₂) :: dictInsert k v rest

/-- Python old.update(new): existing keys keep their position with the
value overwritten by new when present; keys only in new are appended in
order. -/
def dictUpdate {κ α : Type} [DecidableEq κ] (old new : List (κ × α)) :
    List (κ × α) :=
  old.map (fun kv => (kv.1, (lookupA kv.1 new).getD kv.2))
    ++ new.filter (fun kv => !keyMem kv.1 old)

/-! ### Part-of-speech normalization (sentence_builder.py lines 81-87) -/

/-- Contiguous-subsequence test on lists, used to model the Python
substring operator needle in haystack. -/
def containsSeq {α : Type} [DecidableEq α] (needle : List α) : List α → Bool
  | [] => needle.isPrefixOf []
  | a :: t => needle.isPrefixOf (a :: t) || containsSeq needle t

/-- Python needle in haystack for strings. -/
def strContains (haystack needle : String) : Bool :=
  containsSeq needle.toList haystack.toList

/-- sentence_builder.py, SentenceBuilder normalization helper (source name
with a leading underscore): a tag containing one of the verb substrings
maps to verb, else one containing an adjective substring maps to
adjective, else the tag passes through. -/
def normalize_pos (pos : String) : String :=
  if strContains pos "ichidan verb" || strContains pos "godan verb"
      || strContains pos "verb" then "verb"
  else if strContains pos "い adjective" || strContains pos "な adjective"
      || strContains pos "の adjective" then "adjective"
  else pos

/-! ### Grammar element tables (sentence_builder.py lines 10-42) -/

/-- One grammar morpheme entry: the characters, reading and meaning
fields of the literal dictionaries in GRAMMAR_ELEMENTS. -/
structure GrammarEntry where
  characters : String
  reading : String
  meaning : String
deriving DecidableEq

def beginnerParticles : List (String × GrammarEntry) :=
  [("は", ⟨"は", "wa", "topic marker"⟩),
   ("が", ⟨"が", "ga", "subject marker"⟩),
   ("を", ⟨"を", "o", "object marker"⟩),
   ("に", ⟨"に", "ni", "indirect object, destination"⟩),
   ("で", ⟨"で", "de", "location of action"⟩),
   ("の", ⟨"の", "no", "possession"⟩),
   ("と", ⟨"と", "to", "with, and"⟩),
   ("も", ⟨"も", "mo", "also, too"⟩)]

def beginnerVerbEndings : List (String × GrammarEntry) :=
  [("ます", ⟨"ます", "masu", "polite present"⟩),
   ("ました", ⟨"ました", "mashita", "polite past"⟩),
   ("ません", ⟨"ません", "masen", "polite negative"⟩)]

def intermediateParticles : List (String × GrammarEntry) :=
  [("へ", ⟨"へ", "e", "towards"⟩),
   ("から", ⟨"から", "kara", "from"⟩),
   ("まで", ⟨"まで", "made", "until"⟩),
   ("より", ⟨"より", "yori", "than"⟩),
   ("だけ", ⟨"だけ", "dake", "only"⟩)]

def intermediateVerbEndings : List (String × GrammarEntry) :=
  [("て", ⟨"て", "te", "te-form"⟩),
   ("た", ⟨"た", "ta", "past"⟩),
   ("ない", ⟨"ない", "nai", "negative"⟩)]

/-- sentence_builder.py, module-level GRAMMAR_ELEMENTS: tier to category
to key to entry. -/
def GRAMMAR_ELEMENTS :
    List (String × List (String × List (String × GrammarEntry))) :=
  [("beginner",
    [("particles", beginnerParticles),
     ("verb_endings", beginnerVerbEndings)]),
   ("intermediate",
    [("particles", intermediateParticles),
     ("verb_endings", intermediateVerbEndings)])]

/-- One loop body of get_grammar_elements: ensure the category key exists
(defaulting to the empty dict) and update it with the tier items. -/
def addCategory (els : List (String × List (String × GrammarEntry)))
    (cat : String) (items : List (String × GrammarEntry)) :
    List (String × List (String × GrammarEntry)) :=
  let els₂ := if keyMem cat els then els else els ++ [(cat, [])]
  els₂.map (fun cd => if cd.1 = cat then (cd.1, dictUpdate cd.2 items) else cd)

/-- sentence_builder.py lines 89-98, SentenceBuilder.get_grammar_elements:
fold the beginner tier and then the requested tier into one table; a tier
name absent from GRAMMAR_ELEMENTS contributes nothing. -/
def get_grammar_elements (grammar_level : String) :
    List (String × List (String × GrammarEntry)) :=
  ["beginner", grammar_level].foldl
    (fun els lvl =>
      match lookupA lvl GRAMMAR_ELEMENTS with
      | some cats => cats.foldl (fun e ci => addCategory e ci.1 ci.2) els
      | none => els)
    []

/-! ### Startedness and part-of-speech buckets (sentence_builder.py 54-79) -/

/-- Python truthiness of user_specific_data.get("started_at"): a missing
key gives None (falsy) and a present string is truthy when nonempty. -/
def startedTruthy (usd : List (String × String)) : Bool :=
  match lookupA "started_at" usd with
  | some s => !(s == "")
  | none => false

/-- sentence_builder.py lines 54-58: the set of ids of vocabulary items
whose user_specific_data carries a truthy started_at. The Python set is
modelled by list membership. -/
def started_vocab (kb : UserKnowledge) : List Int :=
  (kb.vocabulary.filter (fun w => startedTruthy w.user_specific_data)).map
    (fun w => w.id)

/-- The literal pos_dict of get_available_words_by_pos with its five fixed
keys in source order. -/
def initPosDict : List (String × List WaniKaniItem) :=
  [("verb", []), ("noun", []), ("adjective", []), ("adverb", []),
   ("expression", [])]

/-- Append w to the bucket at key k when that key exists; if the key is
absent nothing changes (Python: if normalized_pos in pos_dict then
append). -/
def updateA (k : String) (w : WaniKaniItem) :
    List (String × List WaniKaniItem) → List (String × List WaniKaniItem)
  | [] => []
  | (k₂, ws) :: rest =>
      if k₂ = k then (k₂, ws ++ [w]) :: rest
      else (k₂, ws) :: updateA k w rest

/-- sentence_builder.py lines 60-79,
SentenceBuilder.get_available_words_by_pos: walk the vocabulary, skip
items whose id is not in the started set, and append each remaining item
to the bucket of every normalized part-of-speech tag that names an
existing key. -/
def get_available_words_by_pos (kb : UserKnowledge) :
    List (String × List WaniKaniItem) :=
  kb.vocabulary.foldl
    (fun d w =>
      if w.id ∈ started_vocab kb then
        w.parts_of_speech.foldl
          (fun d₂ pos => updateA (normalize_pos pos) w d₂) d
      else d)
    initPosDict

/-! ### Template sentence (sentence_builder.py lines 123-156) -/

/-- One slot of the assembled sentence: a vocabulary item or a grammar
morpheme dict (the Union[WaniKaniItem, dict] of the source). -/
inductive SentenceSlot
  | word (w : WaniKaniItem)
  | grammar (g : GrammarEntry)
deriving DecidableEq

/-- Outcome of build_basic_sentence. Besides the None return and the
built triple, the Python body can raise: IndexError from random.choice on
an empty sequence, KeyError from indexing a missing particle key, and
TypeError from joining a None primary reading. -/
inductive BuildResult
  | noSentence
  | built (japanese : String) (reading : String) (items : List SentenceSlot)
  | indexError
  | keyError
  | typeError
deriving DecidableEq

/-- random.choice l with the random draw made explicit as an index taken
modulo the length; the empty sequence gives none (IndexError). -/
def pyChoice {α : Type} (l : List α) (i : Nat) : Option α :=
  l.get? (i % l.length)

/-- sentence_builder.py lines 123-156,
SentenceBuilder.build_basic_sentence. The three random draws are the
index parameters i, j, k. The noun and verb buckets are read from
get_available_words_by_pos (their keys always exist, see the keys
theorem below, so the getD default is never taken); the guard returns
none when either list is empty; then subject, object (drawn from the
nouns unequal to the subject) and verb are chosen, the particles は and
を are read from the merged grammar table, and the character and reading
strings are concatenated in slot order. -/
def build_basic_sentence (kb : UserKnowledge) (grammar_level : String)
    (i j k : Nat) : BuildResult :=
  let available := get_available_words_by_pos kb
  let grammar := get_grammar_elements grammar_level
  let nouns := (lookupA "noun" available).getD []
  let verbs := (lookupA "verb" available).getD []
  if nouns.isEmpty || verbs.isEmpty then .noSentence
  else
    match pyChoice nouns i with
    | none => .indexError
    | some subject =>
      match pyChoice (nouns.filter (fun n => decide (n ≠ subject))) j with
      | none => .indexError
      | some object =>
        match pyChoice verbs k with
        | none => .indexError
        | some verb =>
          let particles := (lookupA "particles" grammar).getD []
          match lookupA "は" particles, lookupA "を" particles with
          | some wa, some wo =>
            let japanese := subject.characters ++ wa.characters
              ++ object.characters ++ wo.characters ++ verb.characters
            match subject.primary_reading, object.primary_reading,
                verb.primary_reading with
            | some rs, some ro, some rv =>
              .built japanese (rs ++ wa.reading ++ ro ++ wo.reading ++ rv)
                [.word subject, .grammar wa, .word object, .grammar wo,
                 .word verb]
            | _, _, _ => .typeError
          | _, _ => .keyError

/-! ### Knowledge aggregation join (client.py, main.py) -/

/-- One progress record as read from the assignments endpoint: the fields
of a["data"] that the joins touch. The srs_stage field is always present
in the API payload; the main.py access a["data"].get("srs_stage", 0) is
therefore the field itself. -/
structure Assignment where
  subject_id : Int
  srs_stage : Int
  started_at : Option String
  subject_type : String
deriving DecidableEq

/-- client.py lines 127-131, the assignment_lookup comprehension of
get_user_knowledge: subject id to SRS stage, restricted to records whose
started_at is not None. -/
def assignment_lookup (assignments : List Assignment) : List (Int × Int) :=
  assignments.foldl
    (fun d a =>
      if a.started_at ≠ none then dictInsert a.subject_id a.srs_stage d
      else d)
    []

/-- main.py lines 65-72, the started_vocab comprehension of
fetch_vocabulary: like assignment_lookup but additionally restricted to
subject_type vocabulary. -/
def main_started_vocab (assignments : List Assignment) : List (Int × Int) :=
  assignments.foldl
    (fun d a =>
      if a.started_at ≠ none ∧ a.subject_type = "vocabulary" then
        dictInsert a.subject_id a.srs_stage d
      else d)
    []

/-- Raw meaning record from the subjects endpoint; primary and
accepted_answer are read with .get defaults. -/
structure RawMeaning where
  meaning : String
  primary : Option Bool
  accepted_answer : Option Bool
deriving DecidableEq

/-- Raw reading record from the subjects endpoint. -/
structure RawReading where
  reading : String
  primary : Option Bool
  accepted_answer : Option Bool
  type : Option String
deriving DecidableEq

/-- Raw subject record: the envelope id and object plus the fields of
its data dict that the converters read; optional fields are those read
with .get defaults. -/
structure RawSubject where
  id : Int
  object : String
  level : Int
  characters : String
  meanings : List RawMeaning
  readings : List RawReading
  parts_of_speech : Option (List String)
  component_subject_ids : Option (List Int)
  user_specific_data : Option (List (String × String))
deriving DecidableEq

def convMeaning (m : RawMeaning) : WKMeaning :=
  ⟨m.meaning, m.primary.getD false, m.accepted_answer.getD true⟩

def convReading (r : RawReading) : WKReading :=
  ⟨r.reading, r.primary.getD false, r.accepted_answer.getD true,
   r.type.getD "reading"⟩

/-- client.py lines 73-102, WaniKaniAPI conversion helper (source name
with a leading underscore): build a WaniKaniItem from a raw record and an
optional SRS stage; a missing user_specific_data defaults to the empty
dict. -/
def convert_to_wanikani_item (raw : RawSubject) (srs_stage : Option Int) :
    WaniKaniItem :=
  { id := raw.id
    object := raw.object
    level := raw.level
    characters := raw.characters
    meanings := raw.meanings.map convMeaning
    readings := raw.readings.map convReading
    parts_of_speech := raw.parts_of_speech.getD []
    component_subject_ids := raw.component_subject_ids.getD []
    srs_stage := srs_stage
    user_specific_data := raw.user_specific_data.getD [] }

/-- client.py lines 151-157: the vocabulary list built by
get_user_knowledge, each subject converted with the SRS stage looked up
in assignment_lookup (absent ids get None). -/
def get_user_knowledge_vocabulary (subjects : List RawSubject)
    (assignments : List Assignment) : List WaniKaniItem :=
  subjects.map
    (fun v => convert_to_wanikani_item v
      (lookupA v.id (assignment_lookup assignments)))

/-- main.py lines 51-109, fetch_vocabulary: keep only subjects whose id
is a key of started_vocab and build items with the looked-up SRS stage
and a hardcoded started_at date. -/
def fetch_vocabulary (subjects : List RawSubject)
    (assignments : List Assignment) : List WaniKaniItem :=
  let started := main_started_vocab assignments
  (subjects.filter (fun it => keyMem it.id started)).map
    (fun it =>
      { id := it.id
        object := it.object
        level := it.level
        characters := it.characters
        meanings := it.meanings.map convMeaning
        readings := it.readings.map convReading
        parts_of_speech := it.parts_of_speech.getD []
        component_subject_ids := it.component_subject_ids.getD []
        srs_stage := lookupA it.id started
        user_specific_data := [("started_at", "2024-01-01")] })

/-! ### Flat-file cache (client.py lines 46-71) -/

/-- Contents of one cache file: either a well-formed envelope (parseable
JSON carrying both the timestamp and data keys, with a parseable ISO
timestamp, here in seconds) or corrupt (unparseable JSON, a missing key,
or a bad timestamp; load_cache catches these as ValueError or KeyError).
The payload equality below models the JSON round trip of a serializable
payload. -/
inductive CacheFileContent (α : Type)
  | envelope (timestamp : Int) (data : α)
  | corrupt

/-- The cache directory: one optional file per key. -/
def CacheStore (α : Type) := String → Option (CacheFileContent α)

/-- client.py lines 46-54, WaniKaniAPI.save_cache: write an envelope
stamped with the current time. -/
def save_cache {α : Type} (store : CacheStore α) (now : Int) (data : α)
    (filename : String) : CacheStore α :=
  fun f => if f = filename then some (.envelope now data) else store f

/-- client.py lines 56-71, WaniKaniAPI.load_cache: none on a missing
file or corrupt contents; none when the age in seconds exceeds
max_age_hours (the source compares age.total_seconds() / 3600 >
max_age_hours, which over integer seconds is exactly now - ts >
max_age_hours * 3600); otherwise the stored data. -/
def load_cache {α : Type} (store : CacheStore α) (now : Int)
    (filename : String) (max_age_hours : Int) : Option α :=
  match store filename with
  | none => none
  | some .corrupt => none
  | some (.envelope ts data) =>
      if now - ts > max_age_hours * 3600 then none else some data

/-! ### Model-backed generation (sentence_builder.py lines 158-241) -/

/-- Outcome of the try block of generate_sentence_with_gpt, with the
network and the model reply as an oracle: the request may fail in
transport, the reply may be unparseable JSON, the parsed object may lack
the sentences key (KeyError), or the sentences value is obtained. -/
inductive GptOutcome (α : Type)
  | transportError
  | badJson
  | missingSentencesKey
  | ok (sentences : List α)

/-- Python falsiness of the stored OpenAI key attribute: None or the
empty string. -/
def pyFalsyKey (key : Option String) : Bool :=
  match key with
  | none => true
  | some s => s == ""

/-- sentence_builder.py lines 158-241,
SentenceBuilder.generate_sentence_with_gpt: a falsy key raises
ValueError before the try block; with a key, every failure inside the
try block is caught and the empty list returned, and a well-formed reply
returns its sentences list unvalidated. -/
def generate_sentence_with_gpt {α : Type} (openai_api_key : Option String)
    (outcome : GptOutcome α) : Except String (List α) :=
  if pyFalsyKey openai_api_key then
    .error "OpenAI API key is required for sentence generation"
  else
    match outcome with
    | .ok sentences => .ok sentences
    | _ => .ok []

/-! ### Concrete sample data used by evaluation and witness theorems -/

/-- A started noun. -/
def hito : WaniKaniItem :=
  { id := 1, object := "vocabulary", level := 1, characters := "人",
    meanings := [⟨"person", true, true⟩],
    readings := [⟨"ひと", true, true, "reading"⟩],
    parts_of_speech := ["noun"], component_subject_ids := [],
    srs_stage := some 1,
    user_specific_data := [("started_at", "2024-01-01")] }

/-- A second started noun. -/
def inu : WaniKaniItem :=
  { id := 2, object := "vocabulary", level := 1, characters := "犬",
    meanings := [⟨"dog", true, true⟩],
    readings := [⟨"いぬ", true, true, "reading"⟩],
    parts_of_speech := ["noun"], component_subject_ids := [],
    srs_stage := some 2,
    user_specific_data := [("started_at", "2024-01-02")] }

/-- A started verb. -/
def taberu : WaniKaniItem :=
  { id := 3, object := "vocabulary", level := 1, characters := "食べる",
    meanings := [⟨"to eat", true, true⟩],
    readings := [⟨"たべる", true, true, "reading"⟩],
    parts_of_speech := ["godan verb"], component_subject_ids := [],
    srs_stage := some 1,
    user_specific_data := [("started_at", "2024-01-03")] }

/-- An item with an SRS stage but an empty user_specific_data map, hence
not started. -/
def ude : WaniKaniItem :=
  { id := 9, object := "vocabulary", level := 2, characters := "腕",
    meanings := [⟨"arm", true, true⟩],
    readings := [⟨"うで", true, true, "reading"⟩],
    parts_of_speech := ["noun"], component_subject_ids := [],
    srs_stage := some 5, user_specific_data := [] }

/-- Snapshot with exactly one started noun and one started verb. -/
def oneNounKB : UserKnowledge := ⟨[hito, taberu], [], 3⟩

/-- Snapshot with two started nouns and one started verb. -/
def twoNounKB : UserKnowledge := ⟨[hito, inu, taberu], [], 3⟩

/-- Snapshot mixing started items with the unstarted item ude. -/
def mixedKB : UserKnowledge := ⟨[hito, ude, taberu], [], 3⟩

/-- A progress record carrying an SRS stage but no started timestamp. -/
def sampleAssignment : Assignment := ⟨7, 4, none, "vocabulary"⟩

/-- A raw subject record matching the id of sampleAssignment. -/
def sampleRaw : RawSubject :=
  ⟨7, "vocabulary", 1, "口", [⟨"mouth", some true, none⟩],
   [⟨"くち", some true, none, none⟩], some ["noun"], none, none⟩

/-- Cache directory with no files. -/
def emptyStore : CacheStore Nat := fun _ => none

/-- Cache directory whose every file is corrupt. -/
def corruptStore : CacheStore Nat := fun _ => some .corrupt

/-- Cache directory holding one very old envelope under every key. -/
def staleStore : CacheStore Nat := fun _ => some (.envelope 0 9)

/-- The beginner topic-marker entry. -/
def waEntry : GrammarEntry := ⟨"は", "wa", "topic marker"⟩

/-- The beginner object-marker entry. -/
def woEntry : GrammarEntry := ⟨"を", "o", "object marker"⟩

/-! ### Helper lemmas -/

/-- Fold preservation of an invariant. -/
theorem foldl_preserve {α β : Type} (P : β → Prop) (f : β → α → β) :
    ∀ (l : List α) (init : β), P init →
      (∀ b a, a ∈ l → P b → P (f b a)) → P (l.foldl f init)
  | [], _, h0, _ => h0
  | a :: l, init, h0, hs =>
      foldl_preserve P f l (f init a) (hs init a (List.mem_cons_self a l) h0)
        (fun b x hx hb => hs b x (List.mem_cons_of_mem a hx) hb)

/-- Inserting under a different key does not change a lookup. -/
theorem lookupA_dictInsert_ne {κ α : Type} [DecidableEq κ] (s k : κ) (v : α)
    (h : k ≠ s) : ∀ d, lookupA s (dictInsert k v d) = lookupA s d := by
  intro d
  induction d with
  | nil => simp [dictInsert, lookupA, h]
  | cons kv rest ih =>
    obtain ⟨k₂, v₂⟩ := kv
    by_cases hk : k₂ = k
    · subst hk
      simp [dictInsert, lookupA, h]
    · simp only [dictInsert, if_neg hk, lookupA]
      by_cases hs : k₂ = s
      · simp [hs]
      · simp [hs, ih]

/-- Appending to a bucket preserves the key list. -/
theorem updateA_keys (k : String) (w : WaniKaniItem) :
    ∀ d, (updateA k w d).map Prod.fst = d.map Prod.fst := by
  intro d
  induction d with
  | nil => rfl
  | cons kv rest ih =>
    obtain ⟨k₂, ws⟩ := kv
    by_cases hk : k₂ = k
    · simp [updateA, hk]
    · simp [updateA, hk, ih]

/-- Every element of a bucket after updateA was already in that bucket or
is the appended item. -/
theorem mem_updateA (k : String) (w : WaniKaniItem) :
    ∀ d c ws, (c, ws) ∈ updateA k w d → ∀ x ∈ ws,
      (∃ ws₀, (c, ws₀) ∈ d ∧ x ∈ ws₀) ∨ x = w := by
  intro d
  induction d with
  | nil => intro c ws h; simp [updateA] at h
  | cons kv rest ih =>
    obtain ⟨k₂, ws₂⟩ := kv
    intro c ws h x hx
    by_cases hk : k₂ = k
    · simp only [updateA, if_pos hk, List.mem_cons] at h
      rcases h with heq | htail
      · injection heq with hc hws
        subst hc
        subst hws
        rcases List.mem_append.mp hx with hx₂ | hx₂
        · exact Or.inl ⟨ws₂, List.mem_cons_self _ _, hx₂⟩
        · exact Or.inr (List.mem_singleton.mp hx₂)
      · exact Or.inl ⟨ws, List.mem_cons_of_mem _ htail, hx⟩
    · simp only [updateA, if_neg hk, List.mem_cons] at h
      rcases h with heq | htail
      · injection heq with hc hws
        subst hc
        subst hws
        exact Or.inl ⟨ws, List.mem_cons_self _ _, hx⟩
      · rcases ih c ws htail x hx with ⟨ws₀, hin, hxin⟩ | hxw
        · exact Or.inl ⟨ws₀, List.mem_cons_of_mem _ hin, hxin⟩
        · exact Or.inr hxw

/-- updateA under a different key does not change a lookup. -/
theorem lookupA_updateA_ne (s k : String) (w : WaniKaniItem) (h : k ≠ s) :
    ∀ d, lookupA s (updateA k w d) = lookupA s d := by
  intro d
  induction d with
  | nil => rfl
  | cons kv rest ih =>
    obtain ⟨k₂, ws⟩ := kv
    by_cases hk : k₂ = k
    · subst hk
      simp [updateA, lookupA, h]
    · simp only [updateA, if_neg hk, lookupA]
      by_cases hs : k₂ = s
      · simp [hs]
      · simp [hs, ih]

/-- Every bucket of the initial pos_dict is empty. -/
theorem initPosDict_empty : ∀ c ws, (c, ws) ∈ initPosDict → ws = [] := by
  intro c ws h
  simp only [initPosDict, List.mem_cons, List.not_mem_nil, or_false,
    Prod.mk.injEq] at h
  rcases h with ⟨_, h2⟩ | ⟨_, h2⟩ | ⟨_, h2⟩ | ⟨_, h2⟩ | ⟨_, h2⟩ <;> exact h2

/-- Every item in any bucket of get_available_words_by_pos is a
vocabulary item of the snapshot whose id is in the started set. -/
theorem mem_bucket_started (kb : UserKnowledge) :
    ∀ cat ws, (cat, ws) ∈ get_available_words_by_pos kb →
      ∀ w ∈ ws, w ∈ kb.vocabulary ∧ w.id ∈ started_vocab kb := by
  unfold get_available_words_by_pos
  refine foldl_preserve
    (fun d : List (String × List WaniKaniItem) => ∀ c l, (c, l) ∈ d →
      ∀ x ∈ l, x ∈ kb.vocabulary ∧ x.id ∈ started_vocab kb) _ _ _ ?_ ?_
  · intro c l h x hx
    rw [initPosDict_empty c l h] at hx
    cases hx
  · intro b a ha hb
    by_cases hstart : a.id ∈ started_vocab kb
    · rw [if_pos hstart]
      refine foldl_preserve
        (fun d : List (String × List WaniKaniItem) => ∀ c l, (c, l) ∈ d →
          ∀ x ∈ l, x ∈ kb.vocabulary ∧ x.id ∈ started_vocab kb) _ _ _ hb ?_
      intro b₂ pos _ hb₂ c l hcl x hx
      rcases mem_updateA (normalize_pos pos) a b₂ c l hcl x hx with
        ⟨ws₀, hin, hxin⟩ | hxa
      · exact hb₂ c ws₀ hin x hxin
      · exact hxa ▸ ⟨ha, hstart⟩
    · rw [if_neg hstart]
      exact hb

/-- The key list of get_available_words_by_pos is the five literal keys
of pos_dict in source order. -/
theorem keys_available (kb : UserKnowledge) :
    (get_available_words_by_pos kb).map Prod.fst
      = ["verb", "noun", "adjective", "adverb", "expression"] := by
  unfold get_available_words_by_pos
  refine foldl_preserve (fun d : List (String × List WaniKaniItem) =>
    d.map Prod.fst
    = ["verb", "noun", "adjective", "adverb", "expression"]) _ _ _ rfl ?_
  intro b a _ hb
  by_cases hstart : a.id ∈ started_vocab kb
  · rw [if_pos hstart]
    refine foldl_preserve (fun d : List (String × List WaniKaniItem) =>
      d.map Prod.fst
      = ["verb", "noun", "adjective", "adverb", "expression"]) _ _ _ hb ?_
    intro b₂ pos _ hb₂
    rw [updateA_keys, hb₂]
  · rwa [if_neg hstart]

/-- containsSeq is the contiguous-sublist relation. -/
theorem containsSeq_infix_iff {α : Type} [DecidableEq α] (n : List α) :
    ∀ h : List α, containsSeq n h = true ↔ n <:+: h := by
  intro h
  induction h with
  | nil =>
    simp only [containsSeq, List.isPrefixOf_iff_prefix]
    constructor
    · intro hp
      exact hp.isInfix
    · intro hi
      rcases hi with ⟨s, t, hst⟩
      rcases List.append_eq_nil.mp ((List.append_assoc s n t) ▸ hst) with
        ⟨hs, hnt⟩
      rcases List.append_eq_nil.mp hnt with ⟨hn, ht⟩
      simp [hn]
  | cons a t ih =>
    simp only [containsSeq, Bool.or_eq_true, List.isPrefixOf_iff_prefix, ih,
      List.infix_cons_iff]

/-- A string containing sub₁ contains every substring sub₂ of sub₁. -/
theorem strContains_of_contains_sub (pos sub₁ sub₂ : String)
    (h1 : strContains pos sub₁ = true)
    (h2 : containsSeq sub₂.toList sub₁.toList = true) :
    strContains pos sub₂ = true := by
  unfold strContains at h1 ⊢
  rw [containsSeq_infix_iff] at h1 h2 ⊢
  exact h2.trans h1

/-- A tag containing the substring verb normalizes to verb. -/
theorem normalize_pos_of_verb (pos : String)
    (h : strContains pos "verb" = true) : normalize_pos pos = "verb" := by
  unfold normalize_pos
  rw [h]
  simp

/-- If a tag does not contain verb then the whole first guard of
normalize_pos is false, because the two longer verb substrings each
contain verb. -/
theorem normalize_pos_verb_false (pos : String)
    (h : strContains pos "verb" = false) :
    (strContains pos "ichidan verb" || strContains pos "godan verb"
      || strContains pos "verb") = false := by
  have h1 : strContains pos "ichidan verb" = false := by
    by_contra hc
    rw [Bool.not_eq_false] at hc
    rw [strContains_of_contains_sub pos "ichidan verb" "verb" hc
      (by decide)] at h
    cases h
  have h2 : strContains pos "godan verb" = false := by
    by_contra hc
    rw [Bool.not_eq_false] at hc
    rw [strContains_of_contains_sub pos "godan verb" "verb" hc
      (by decide)] at h
    cases h
  rw [h, h1, h2]
  rfl

/-- No raw tag normalizes to adverb: the verb and adjective branches
return other strings, and a passed-through tag equal to adverb is
impossible because adverb contains verb as a substring. -/
theorem normalize_pos_ne_adverb (pos : String) :
    normalize_pos pos ≠ "adverb" := by
  unfold normalize_pos
  split
  · decide
  · split
    · decide
    · intro he
      subst he
      rename_i hcond _
      exact hcond (by decide)

/-- A tier name other than beginner and intermediate contributes nothing:
the merged table equals the beginner table. -/
theorem grammar_elements_unknown (lvl : String) (hb : lvl ≠ "beginner")
    (hi : lvl ≠ "intermediate") :
    get_grammar_elements lvl = get_grammar_elements "beginner" := by
  have h1 : lookupA lvl GRAMMAR_ELEMENTS = none := by
    simp only [GRAMMAR_ELEMENTS, lookupA]
    rw [if_neg (fun hh => hb hh.symm), if_neg (fun hh => hi hh.symm)]
  unfold get_grammar_elements
  simp only [List.foldl, h1]
  decide

/-- For every requested tier the merged particle table contains the
beginner は and を entries (the intermediate tier never overrides them). -/
theorem particles_wa_wo (lvl : String) :
    lookupA "は" ((lookupA "particles" (get_grammar_elements lvl)).getD [])
      = some waEntry
    ∧ lookupA "を" ((lookupA "particles" (get_grammar_elements lvl)).getD [])
      = some woEntry := by
  by_cases hb : lvl = "beginner"
  · subst hb
    exact ⟨by decide, by decide⟩
  by_cases hi : lvl = "intermediate"
  · subst hi
    exact ⟨by decide, by decide⟩
  · rw [grammar_elements_unknown lvl hb hi]
    exact ⟨by decide, by decide⟩

/-- A successful pyChoice draw is a member of the list. -/
theorem pyChoice_mem {α : Type} (l : List α) (i : Nat) (x : α)
    (h : pyChoice l i = some x) : x ∈ l :=
  List.get?_mem h

/-! ### Claim theorems -/

/-- Claim C1. The claim says build_basic_sentence returns none whenever
the started nouns number fewer than 2 or the verbs fewer than 1, and in
particular returns none (not an exception) with exactly one noun and one
verb. The code only guards against empty noun and verb lists; on the
snapshot with exactly one started noun and one started verb the object
draw runs random.choice over the empty remainder list and raises
IndexError, contradicting the claim (and the error-handling design of
the spec, which says insufficiency is signalled as an explicit no
sentence result). This theorem evaluates the embedding at that failing
input. -/
theorem c1_single_noun_raises_index_error :
    build_basic_sentence oneNounKB "beginner" 0 0 0
      = BuildResult.indexError := by decide

/-- Claim C2: a progress record with no started timestamp never places
its subject id in the started mapping of client.get_user_knowledge, so
the converted item for that subject gets no SRS stage; likewise the
subject never enters the started_vocab mapping of main.fetch_vocabulary
and never appears among its returned items, regardless of the SRS stage
on the record. -/
theorem c2_unstarted_record_excluded (assignments : List Assignment)
    (s : Int) (subjects : List RawSubject)
    (h : ∀ a ∈ assignments, a.subject_id = s → a.started_at = none) :
    lookupA s (assignment_lookup assignments) = none
    ∧ (∀ v ∈ get_user_knowledge_vocabulary subjects assignments,
        v.id = s → v.srs_stage = none)
    ∧ lookupA s (main_started_vocab assignments) = none
    ∧ (∀ w ∈ fetch_vocabulary subjects assignments, w.id ≠ s) := by
  have h1 : lookupA s (assignment_lookup assignments) = none := by
    unfold assignment_lookup
    refine foldl_preserve (fun d : List (Int × Int) =>
      lookupA s d = none) _ _ _ rfl ?_
    intro b a ha hb
    by_cases hc : a.started_at ≠ none
    · rw [if_pos hc]
      have hne : a.subject_id ≠ s := fun hh => hc (h a ha hh)
      rw [lookupA_dictInsert_ne s a.subject_id a.srs_stage hne b, hb]
    · rwa [if_neg hc]
  have h3 : lookupA s (main_started_vocab assignments) = none := by
    unfold main_started_vocab
    refine foldl_preserve (fun d : List (Int × Int) =>
      lookupA s d = none) _ _ _ rfl ?_
    intro b a ha hb
    by_cases hc : a.started_at ≠ none ∧ a.subject_type = "vocabulary"
    · rw [if_pos hc]
      have hne : a.subject_id ≠ s := fun hh => hc.1 (h a ha hh)
      rw [lookupA_dictInsert_ne s a.subject_id a.srs_stage hne b, hb]
    · rwa [if_neg hc]
  refine ⟨h1, ?_, h3, ?_⟩
  · intro v hv hid
    rcases List.mem_map.mp hv with ⟨raw, hraw, hconv⟩
    have hid2 : raw.id = s := by
      rw [← hconv] at hid
      exact hid
    rw [← hconv]
    show lookupA raw.id (assignment_lookup assignments) = none
    rw [hid2]
    exact h1
  · intro w hw hid
    unfold fetch_vocabulary at hw
    rcases List.mem_map.mp hw with ⟨it, hit, hconv⟩
    have hkm : keyMem it.id (main_started_vocab assignments) = true :=
      (List.mem_filter.mp hit).2
    have hid2 : it.id = s := by
      rw [← hconv] at hid
      exact hid
    rw [hid2] at hkm
    unfold keyMem at hkm
    rw [h3] at hkm
    cases hkm

/-- Witness for claim C2: a record with an SRS stage but no started
timestamp, instantiated concretely. -/
theorem c2_unstarted_record_excluded_witness :
    lookupA (7 : Int) (assignment_lookup [sampleAssignment]) = none
    ∧ (∀ v ∈ get_user_knowledge_vocabulary [sampleRaw] [sampleAssignment],
        v.id = (7 : Int) → v.srs_stage = none)
    ∧ lookupA (7 : Int) (main_started_vocab [sampleAssignment]) = none
    ∧ (∀ w ∈ fetch_vocabulary [sampleRaw] [sampleAssignment],
        w.id ≠ (7 : Int)) :=
  c2_unstarted_record_excluded [sampleAssignment] 7 [sampleRaw] (by decide)

/-- Claim C3: whenever build_basic_sentence returns a built sentence, the
slot list is exactly subject, は, object, を, verb; the Japanese string
is the slot-order concatenation of the character forms, the reading
string the slot-order concatenation of the primary readings and particle
readings, and the object differs from the subject. -/
theorem c3_built_sentence_shape (kb : UserKnowledge) (lvl : String)
    (i j k : Nat) (jp rd : String) (items : List SentenceSlot)
    (h : build_basic_sentence kb lvl i j k = .built jp rd items) :
    ∃ subject object verb : WaniKaniItem, ∃ rs ro rv : String,
      items = [.word subject, .grammar waEntry, .word object,
        .grammar woEntry, .word verb]
      ∧ object ≠ subject
      ∧ jp = subject.characters ++ "は" ++ object.characters ++ "を"
          ++ verb.characters
      ∧ subject.primary_reading = some rs
      ∧ object.primary_reading = some ro
      ∧ verb.primary_reading = some rv
      ∧ rd = rs ++ "wa" ++ ro ++ "o" ++ rv := by
  simp only [build_basic_sentence] at h
  split at h
  · simp at h
  · split at h
    · simp at h
    · rename_i subject hsubj
      split at h
      · simp at h
      · rename_i object hobj
        split at h
        · simp at h
        · rename_i verb hverb
          split at h
          · rename_i wa wo hwa hwo
            split at h
            · rename_i rs ro rv hrs hro hrv
              have hpw := (particles_wa_wo lvl).1
              have hpo := (particles_wa_wo lvl).2
              rw [hwa] at hpw
              rw [hwo] at hpo
              injection hpw with hpw
              injection hpo with hpo
              subst hpw
              subst hpo
              injection h with hjp hrd hitems
              have hne : object ≠ subject := by
                have hmem := pyChoice_mem _ j object hobj
                have hdec := (List.mem_filter.mp hmem).2
                exact of_decide_eq_true hdec
              exact ⟨subject, object, verb, rs, ro, rv, hitems.symm, hne,
                hjp.symm, hrs, hro, hrv, hrd.symm⟩
            · simp at h
          · simp at h

/-- Witness for claim C3: the two-noun one-verb snapshot builds the
concrete sentence 人は犬を食べる. -/
theorem c3_built_sentence_shape_witness :
    ∃ subject object verb : WaniKaniItem, ∃ rs ro rv : String,
      [SentenceSlot.word hito, SentenceSlot.grammar waEntry,
        SentenceSlot.word inu, SentenceSlot.grammar woEntry,
        SentenceSlot.word taberu]
        = [SentenceSlot.word subject, SentenceSlot.grammar waEntry,
          SentenceSlot.word object, SentenceSlot.grammar woEntry,
          SentenceSlot.word verb]
      ∧ object ≠ subject
      ∧ "人は犬を食べる" = subject.characters ++ "は" ++ object.characters
          ++ "を" ++ verb.characters
      ∧ subject.primary_reading = some rs
      ∧ object.primary_reading = some ro
      ∧ verb.primary_reading = some rv
      ∧ "ひとwaいぬoたべる" = rs ++ "wa" ++ ro ++ "o" ++ rv :=
  c3_built_sentence_shape twoNounKB "beginner" 0 0 0 "人は犬を食べる"
    "ひとwaいぬoたべる"
    [SentenceSlot.word hito, SentenceSlot.grammar waEntry,
      SentenceSlot.word inu, SentenceSlot.grammar woEntry,
      SentenceSlot.word taberu] (by decide)

/-- Claim C4: normalize_pos maps any tag containing verb to verb, any
remaining tag containing one of the three adjective substrings to
adjective, and returns every other tag unchanged. -/
theorem c4_normalize_pos_cases (pos : String) :
    (strContains pos "verb" = true → normalize_pos pos = "verb")
    ∧ (strContains pos "verb" = false →
        (strContains pos "い adjective" = true
          ∨ strContains pos "な adjective" = true
          ∨ strContains pos "の adjective" = true) →
        normalize_pos pos = "adjective")
    ∧ (strContains pos "verb" = false →
        strContains pos "い adjective" = false →
        strContains pos "な adjective" = false →
        strContains pos "の adjective" = false →
        normalize_pos pos = pos) := by
  refine ⟨normalize_pos_of_verb pos, ?_, ?_⟩
  · intro hv hadj
    unfold normalize_pos
    rw [normalize_pos_verb_false pos hv]
    rcases hadj with hx | hx | hx <;> simp [hx]
  · intro hv h1 h2 h3
    unfold normalize_pos
    rw [normalize_pos_verb_false pos hv]
    simp [h1, h2, h3]

/-- Witness for claim C4 at the example tags of the spec. -/
theorem c4_normalize_pos_cases_witness :
    normalize_pos "godan verb" = "verb"
    ∧ normalize_pos "の adjective" = "adjective"
    ∧ normalize_pos "noun" = "noun" :=
  ⟨(c4_normalize_pos_cases "godan verb").1 (by decide),
   (c4_normalize_pos_cases "の adjective").2.1 (by decide)
     (Or.inr (Or.inr (by decide))),
   (c4_normalize_pos_cases "noun").2.2 (by decide) (by decide) (by decide)
     (by decide)⟩

/-- Claim C5: for every snapshot the bucket map has exactly the five
fixed keys verb, noun, adjective, adverb, expression, and every item in
any bucket is a vocabulary item of the snapshot whose id is in the
started set. -/
theorem c5_pos_bucket_keys_and_started (kb : UserKnowledge) :
    (get_available_words_by_pos kb).map Prod.fst
      = ["verb", "noun", "adjective", "adverb", "expression"]
    ∧ ∀ cat ws, (cat, ws) ∈ get_available_words_by_pos kb →
        ∀ w ∈ ws, w ∈ kb.vocabulary ∧ w.id ∈ started_vocab kb :=
  ⟨keys_available kb, mem_bucket_started kb⟩

/-- Witness for claim C5 on a concrete snapshot and its noun bucket. -/
theorem c5_pos_bucket_keys_and_started_witness :
    hito ∈ twoNounKB.vocabulary ∧ hito.id ∈ started_vocab twoNounKB :=
  (c5_pos_bucket_keys_and_started twoNounKB).2 "noun" [hito, inu]
    (by decide) hito (by decide)

/-- Claim C6: requesting tier intermediate yields a table containing
every intermediate particle and verb-ending entry, and every beginner
one whose key does not collide with an intermediate key (on collision
the intermediate entry would win, in line with dict.update); requesting
beginner yields the beginner tier alone. The function is pure in the
tier argument by construction. -/
theorem c6_grammar_merge_intermediate :
    (∀ kv ∈ intermediateParticles,
      lookupA kv.1 ((lookupA "particles"
        (get_grammar_elements "intermediate")).getD []) = some kv.2)
    ∧ (∀ kv ∈ beginnerParticles, keyMem kv.1 intermediateParticles = false →
      lookupA kv.1 ((lookupA "particles"
        (get_grammar_elements "intermediate")).getD []) = some kv.2)
    ∧ (∀ kv ∈ intermediateVerbEndings,
      lookupA kv.1 ((lookupA "verb_endings"
        (get_grammar_elements "intermediate")).getD []) = some kv.2)
    ∧ (∀ kv ∈ beginnerVerbEndings,
      keyMem kv.1 intermediateVerbEndings = false →
      lookupA kv.1 ((lookupA "verb_endings"
        (get_grammar_elements "intermediate")).getD []) = some kv.2)
    ∧ get_grammar_elements "beginner"
        = [("particles", beginnerParticles),
           ("verb_endings", beginnerVerbEndings)] := by
  refine ⟨?_, ?_, ?_, ?_, by decide⟩ <;> decide

/-- Witness for claim C6 at the beginner は entry. -/
theorem c6_grammar_merge_intermediate_witness :
    lookupA "は" ((lookupA "particles"
      (get_grammar_elements "intermediate")).getD []) = some waEntry :=
  c6_grammar_merge_intermediate.2.1 ("は", waEntry) (by decide) (by decide)

/-- Claim C7: saving then loading under the TTL returns the saved
payload; loading returns none on a missing file, on corrupt contents,
and on an envelope older than the TTL. -/
theorem c7_cache_roundtrip_and_misses {α : Type} (store : CacheStore α)
    (key : String) (data : α) (saved_at loaded_at now : Int)
    (max_age_hours : Int) :
    (¬ loaded_at - saved_at > max_age_hours * 3600 →
      load_cache (save_cache store saved_at data key) loaded_at key
        max_age_hours = some data)
    ∧ (store key = none → load_cache store now key max_age_hours = none)
    ∧ (store key = some .corrupt →
        load_cache store now key max_age_hours = none)
    ∧ (∀ ts d₀, store key = some (.envelope ts d₀) →
        now - ts > max_age_hours * 3600 →
        load_cache store now key max_age_hours = none) := by
  refine ⟨?_, ?_, ?_, ?_⟩
  · intro hage
    simp only [load_cache, save_cache, if_pos rfl]
    simp only [eq_self_iff_true, if_true]
    rw [if_neg hage]
  · intro hm
    unfold load_cache
    rw [hm]
  · intro hm
    unfold load_cache
    rw [hm]
  · intro ts d₀ hm hage
    unfold load_cache
    rw [hm]
    simp [hage]

/-- Witness for claim C7: a fresh round trip, a missing file, a corrupt
file, and a stale envelope, all concrete. -/
theorem c7_cache_roundtrip_and_misses_witness :
    load_cache (save_cache emptyStore 100 5 "knowledge") 3700 "knowledge" 1
      = some 5
    ∧ load_cache emptyStore 0 "knowledge" 24 = none
    ∧ load_cache corruptStore 0 "knowledge" 24 = none
    ∧ load_cache staleStore 90000 "knowledge" 24 = none :=
  ⟨(c7_cache_roundtrip_and_misses emptyStore "knowledge" 5 100 3700 0 1).1
     (by decide),
   (c7_cache_roundtrip_and_misses emptyStore "knowledge" 5 0 0 0 24).2.1 rfl,
   (c7_cache_roundtrip_and_misses corruptStore "knowledge" 5 0 0 0 24).2.2.1
     rfl,
   (And.right (And.right (And.right (c7_cache_roundtrip_and_misses
     staleStore "knowledge" 9 0 0 90000 24))) 0 9 rfl (by decide))⟩

/-- Claim C8: generate_sentence_with_gpt raises exactly when the stored
key is falsy (absent or empty); with a key, a transport failure, an
unparseable reply or a reply lacking the sentences key all yield the
empty list, and a well-formed reply yields its sentences. -/
theorem c8_gpt_failure_policy {α : Type} (key : Option String)
    (o : GptOutcome α) :
    ((∃ msg, generate_sentence_with_gpt key o = .error msg)
      ↔ pyFalsyKey key = true)
    ∧ (pyFalsyKey key = false →
        (∀ ss, o = .ok ss → generate_sentence_with_gpt key o = .ok ss)
        ∧ ((o = .transportError ∨ o = .badJson ∨ o = .missingSentencesKey) →
          generate_sentence_with_gpt key o = .ok [])) := by
  unfold generate_sentence_with_gpt
  by_cases hf : pyFalsyKey key = true
  · rw [if_pos hf]
    constructor
    · exact ⟨fun _ => hf, fun _ => ⟨_, rfl⟩⟩
    · intro hc
      rw [hc] at hf
      cases hf
  · rw [if_neg hf]
    have hf2 : pyFalsyKey key = false := by
      cases hpf : pyFalsyKey key
      · rfl
      · exact absurd hpf hf
    constructor
    · constructor
      · rintro ⟨msg, hmsg⟩
        cases o <;> simp at hmsg
      · intro hc
        rw [hf2] at hc
        cases hc
    · intro _
      constructor
      · intro ss hss
        subst hss
        rfl
      · intro ho
        rcases ho with ho | ho | ho <;> (subst ho; rfl)

/-- Witness for claim C8: with a key a bad reply degrades to the empty
list, without a key the call errors. -/
theorem c8_gpt_failure_policy_witness :
    generate_sentence_with_gpt (some "sk-test")
      (GptOutcome.badJson : GptOutcome Nat) = Except.ok []
    ∧ (∃ msg, generate_sentence_with_gpt (none : Option String)
        (GptOutcome.badJson : GptOutcome Nat) = Except.error msg) :=
  ⟨((c8_gpt_failure_policy (some "sk-test") GptOutcome.badJson).2
      (by decide)).2 (Or.inr (Or.inl rfl)),
   (c8_gpt_failure_policy (none : Option String) GptOutcome.badJson).1.mpr
     (by decide)⟩

/-- Claim C9: the adverb bucket of get_available_words_by_pos is the
empty list for every snapshot, because the substring test maps the tag
adverb to verb and no other tag can normalize to adverb. -/
theorem c9_adverb_bucket_always_empty (kb : UserKnowledge) :
    lookupA "adverb" (get_available_words_by_pos kb) = some [] := by
  unfold get_available_words_by_pos
  refine foldl_preserve (fun d : List (String × List WaniKaniItem) =>
    lookupA "adverb" d = some []) _ _ _ (by decide) ?_
  intro b a _ hb
  by_cases hstart : a.id ∈ started_vocab kb
  · rw [if_pos hstart]
    refine foldl_preserve (fun d : List (String × List WaniKaniItem) =>
      lookupA "adverb" d = some []) _ _ _ hb ?_
    intro b₂ pos _ hb₂
    rw [lookupA_updateA_ne "adverb" (normalize_pos pos) a
      (normalize_pos_ne_adverb pos) b₂, hb₂]
  · rwa [if_neg hstart]

/-- Claim C10: startedness is decided solely by a truthy started_at in
user_specific_data. If no vocabulary item with id i has a truthy entry,
then i is not in the started set and no bucket item carries id i, even
when the srs_stage field is set (the buckets never consult srs_stage);
and the conversion of a raw record lacking user_specific_data attaches
the empty map, which is never truthy. -/
theorem c10_startedness_truthy_only (kb : UserKnowledge) (i : Int)
    (h : ∀ w ∈ kb.vocabulary, w.id = i →
      startedTruthy w.user_specific_data = false) :
    i ∉ started_vocab kb
    ∧ (∀ cat ws, (cat, ws) ∈ get_available_words_by_pos kb →
        ∀ w ∈ ws, w.id ≠ i)
    ∧ (∀ raw st, raw.user_specific_data = none →
        startedTruthy (convert_to_wanikani_item raw st).user_specific_data
          = false) := by
  have hnot : i ∉ started_vocab kb := by
    intro hmem
    unfold started_vocab at hmem
    rcases List.mem_map.mp hmem with ⟨w, hwf, hid⟩
    have hw := List.mem_filter.mp hwf
    have hfalse := h w hw.1 hid
    rw [hfalse] at hw
    exact Bool.false_ne_true hw.2
  refine ⟨hnot, ?_, ?_⟩
  · intro cat ws hcw w hw hid
    have hws := (mem_bucket_started kb cat ws hcw w hw).2
    rw [hid] at hws
    exact hnot hws
  · intro raw st hn
    simp [convert_to_wanikani_item, hn, startedTruthy, lookupA]

/-- Witness for claim C10: the unstarted item ude with srs_stage 5 is
excluded from the started set and from every bucket. -/
theorem c10_startedness_truthy_only_witness :
    (9 : Int) ∉ started_vocab mixedKB
    ∧ (∀ cat ws, (cat, ws) ∈ get_available_words_by_pos mixedKB →
        ∀ w ∈ ws, w.id ≠ (9 : Int))
    ∧ (∀ raw st, raw.user_specific_data = none →
        startedTruthy (convert_to_wanikani_item raw st).user_specific_data
          = false) :=
  c10_startedness_truthy_only mixedKB 9 (by decide)
